import Mathlib

/-!
Shallow embedding of the well-bookkeeping and custom-aspiration code of
`OT2_ViscometerProtocol_AC.py` (repository Opentrons-ProxyViscometer),
together with the embedded custom labware JSON definition shared by both
run scripts.

Modelling conventions:

* The per-well `c_info` dictionary attached to a labware well is modelled
  as the structure `CInfo`; Python floats are modelled as real numbers.
* Python functions that read or mutate the well's `c_info` are modelled as
  state transformers `CInfo → CInfo × α`; a function that raises inside
  the modelled fragment returns an `Except PyError`, with the pre-call
  state as the first component (a raised exception leaves the well's
  dictionary as it was).
* Python float division raises `ZeroDivisionError` on a zero divisor;
  this is modelled by `pyDiv`.  A failed `assert` raises
  `AssertionError`.  A missing dictionary key raises `KeyError`; the stock
  maps are modelled as `String → Option ℝ` so a missing key is `none`.
* The pipette object only contributes its tip length and its default
  aspirate flow rate to the modelled fragment; these are passed as
  explicit real parameters.
* Referencing an undefined module-level name raises `NameError`: the
  `bb.` prefix used throughout the body of `custom_aspirate` is neither
  imported nor defined in `OT2_ViscometerProtocol_AC.py`, so the first
  such reference (line 246) raises `NameError` on every
  assertion-passing call.
-/

/-- Exceptions of the Python fragment that the claims mention. -/
inductive PyError where
  | keyError
  | zeroDivisionError
  | assertionError
  | nameError
deriving DecidableEq

/-- Python float division: raises `ZeroDivisionError` on a zero divisor. -/
noncomputable def pyDiv (a b : ℝ) : Except PyError ℝ :=
  if b = 0 then .error .zeroDivisionError else .ok (a / b)

/-- The per-well `c_info` dictionary created by `initiate_well`:
volume/headroom bookkeeping, the user-supplied volume/headroom conversion
pair `vh_functions`, the well volume uncertainties, and the per-constituent
stock maps. -/
structure CInfo where
  constituents_number : ℕ
  volume : ℝ
  headroom : ℝ
  v_given_h : ℝ → ℝ
  h_given_v : ℝ → ℝ
  vu_random : ℝ
  vu_systematic : ℝ
  constituents : List String
  concentrations_stock : String → Option ℝ
  concentration_uncertainty_stock : String → Option ℝ
  volume_stock : String → Option ℝ
  volume_uncertainty_stock : String → Option ℝ

/-- `initiate_well(well, volume_function)`: the freshly initiated `c_info`
dictionary, with headroom set to the well geometry's depth and the
conversion pair taken from `volume_function`. -/
def initiate_well (depth : ℝ) (volume_function_v_given_h volume_function_h_given_v : ℝ → ℝ) : CInfo :=
  { constituents_number := 0
    volume := 0
    headroom := depth
    v_given_h := volume_function_v_given_h
    h_given_v := volume_function_h_given_v
    vu_random := 0
    vu_systematic := 0
    constituents := []
    concentrations_stock := fun _ => none
    concentration_uncertainty_stock := fun _ => none
    volume_stock := fun _ => none
    volume_uncertainty_stock := fun _ => none }

/-- `set_headroom(well, headroom)`: writes the headroom field, then also
writes the volume field using the well's `v_given_h` conversion. -/
def set_headroom (c : CInfo) (headroom : ℝ) : CInfo :=
  let c1 := { c with headroom := headroom }
  let volume := c1.v_given_h headroom
  { c1 with volume := volume }

/-- `get_headroom(well)`: reads the headroom field. -/
def get_headroom (c : CInfo) : CInfo × ℝ := (c, c.headroom)

/-- `set_volume(well, volume)`: writes the volume field, then also writes
the headroom field using the well's `h_given_v` conversion. -/
def set_volume (c : CInfo) (volume : ℝ) : CInfo :=
  let c1 := { c with volume := volume }
  let headroom := c1.h_given_v volume
  { c1 with headroom := headroom }

/-- `get_volume(well)`: reads the volume field. -/
def get_volume (c : CInfo) : CInfo × ℝ := (c, c.volume)

/-- `get_constituents(well)`: reads the constituents list. -/
def get_constituents (c : CInfo) : CInfo × List String := (c, c.constituents)

/-- `set_constituent(well, constituent, concentration, c_uncertainty,
v_uncertainty)`: records a constituent in the four stock maps and appends
it to the constituents list. -/
def set_constituent (c : CInfo) (constituent : String) (concentration c_uncertainty v_uncertainty : ℝ) : CInfo :=
  { c with
    constituents_number := c.constituents_number + 1
    constituents := c.constituents ++ [constituent]
    concentrations_stock := Function.update c.concentrations_stock constituent (some concentration)
    concentration_uncertainty_stock :=
      Function.update c.concentration_uncertainty_stock constituent (some c_uncertainty)
    volume_stock := Function.update c.volume_stock constituent (some c.volume)
    volume_uncertainty_stock :=
      Function.update c.volume_uncertainty_stock constituent (some v_uncertainty) }

/-- The triple returned by `get_concentration`, plus whether the
missing-constituent warning was printed. -/
structure ConcResult where
  concentration : ℝ
  low_c_unc : ℝ
  high_c_unc : ℝ
  warned : Bool

/-- `get_concentration(well, constituent)`: reads the stock maps inside a
try/except.  If any of the four per-constituent lookups raises `KeyError`
the except branch prints a warning and returns `(0, 0, 0)`.  Otherwise the
concentration and the low/high uncertainty estimates are computed; each
Python float division is `pyDiv`, in source order, and a zero divisor
raises `ZeroDivisionError`, which the except branch does not catch. -/
noncomputable def get_concentration (c : CInfo) (constituent : String) :
    CInfo × Except PyError ConcResult :=
  match c.volume_stock constituent, c.concentrations_stock constituent,
      c.concentration_uncertainty_stock constituent,
      c.volume_uncertainty_stock constituent with
  | some stock_volume, some stock_concentration, some stock_c_unc, some stock_v_unc =>
    let corrected_well_volume := (get_volume c).2 + c.vu_systematic
    let well_volume_unc := c.vu_random
    (c,
      match pyDiv stock_volume corrected_well_volume with
      | .error e => .error e
      | .ok sr =>
        let concentration := sr * stock_concentration
        match pyDiv stock_c_unc stock_concentration with
        | .error e => .error e
        | .ok r1 =>
          match pyDiv well_volume_unc corrected_well_volume with
          | .error e => .error e
          | .ok r2 =>
            let low_c_unc := Real.sqrt (r1 ^ 2 + r2 ^ 2) * concentration
            match pyDiv stock_v_unc stock_volume with
            | .error e => .error e
            | .ok r3 =>
              let high_c_unc := Real.sqrt (r3 ^ 2 + r1 ^ 2 + r2 ^ 2) * concentration
              .ok ⟨concentration, low_c_unc, high_c_unc, false⟩)
  | _, _, _, _ => (c, .ok ⟨0, 0, 0, true⟩)

/-- The payload type of `custom_aspirate`'s success outcome: the values
it would hand to `pipette.aspirate`, plus the two safety-warning flags.
The success path is unreachable in the source (see `custom_aspirate`). -/
structure AspirateOut where
  depth_to_aspirate : ℝ
  rate_rel : ℝ
  warned_low : Bool
  warned_submerged : Bool

/-- `get_relative_from_flow_rate_aspirate(pipette, flow_rate)`: divides the
requested rate by the pipette's default aspirate flow rate. -/
noncomputable def get_relative_from_flow_rate_aspirate (default_aspirate rate : ℝ) :
    Except PyError ℝ :=
  pyDiv rate default_aspirate

/-- `custom_aspirate(pipette, transfer_volume, location, immersion_depth,
safety_height, rate)`: asserts its arguments (lines 242-243), then
evaluates `bb.get_relative_from_flow_rate_aspirate(pipette, rate)` at
line 246.  The name `bb` is neither imported nor defined anywhere in
`OT2_ViscometerProtocol_AC.py`, so every assertion-passing call raises
`NameError` there - before the well's `c_info` is read or written,
before any aspiration depth is computed or clamped, before any warning
is printed, and before `pipette.aspirate` is reached.  The rest of the
body (lines 248-280: headroom update via `bb.set_headroom`, the two
safety clamps with printed warnings, the final non-negativity clamp,
the aspirate call) is dead code.  `tip_length` and `default_aspirate`
stand for the pipette's tip length and default aspirate flow rate; the
early `NameError` leaves them and `rate` unused. -/
noncomputable def custom_aspirate (tip_length default_aspirate : ℝ) (c : CInfo)
    (transfer_volume immersion_depth safety_height rate : ℝ) :
    CInfo × Except PyError AspirateOut :=
  if ¬ transfer_volume > 0 then (c, .error .assertionError)
  else if ¬ safety_height ≥ 0 then (c, .error .assertionError)
  else (c, .error .nameError)

/-- The value the source expression `final_headroom + immersion_depth`
at line 255 would denote for a given well state - the "initially
computed" aspiration depth the claims refer to.  At run time the
expression is unreachable: `custom_aspirate` raises `NameError` at line
246 first. -/
noncomputable def depth_to_aspirate_initial (c : CInfo)
    (transfer_volume immersion_depth : ℝ) : ℝ :=
  c.h_given_v (c.volume - transfer_volume) + immersion_depth

/-- One well entry of the embedded custom labware JSON definition. -/
structure WellDef where
  depth : ℚ
  totalLiquidVolume : ℚ
  shape : String
  diameter : ℚ
  x : ℚ
  y : ℚ
  z : ℚ
deriving DecidableEq

/-- The fields of the embedded custom labware JSON definition that the
spec describes: display category and the named well entries, in the order
they appear in the JSON text. -/
structure LabwareDef where
  displayName : String
  displayCategory : String
  wells : List (String × WellDef)
deriving DecidableEq

/-- The inline JSON labware definition `CALAB_8_TUBERACK_20000UL_DEF_JSON`
embedded in `OT2_ViscometerProtocol_AC.py` (lines 284-299), transcribed
field by field. -/
def CALAB_8_TUBERACK_20000UL_AC : LabwareDef :=
  { displayName := "CALAB 8 Tube Rack with Generic 20 mL"
    displayCategory := "tubeRack"
    wells :=
      [("A1", ⟨55.55, 20000, "circular", 27.15, 16.5, 68.97, 5.2⟩),
       ("B1", ⟨55.55, 20000, "circular", 27.15, 16.5, 37.97, 5.2⟩),
       ("A2", ⟨55.55, 20000, "circular", 27.15, 47.5, 68.97, 5.2⟩),
       ("B2", ⟨55.55, 20000, "circular", 27.15, 47.5, 37.97, 5.2⟩),
       ("A3", ⟨55.55, 20000, "circular", 27.15, 78.5, 68.97, 5.2⟩),
       ("B3", ⟨55.55, 20000, "circular", 27.15, 78.5, 37.97, 5.2⟩),
       ("A4", ⟨55.55, 20000, "circular", 27.15, 109.5, 68.97, 5.2⟩),
       ("B4", ⟨55.55, 20000, "circular", 27.15, 109.5, 37.97, 5.2⟩)] }

/-- The inline JSON labware definition `CALAB_8_TUBERACK_20000UL_DEF_JSON`
embedded in `OT2_ViscometerProtocol_test.py` (lines 17-31), transcribed
field by field. -/
def CALAB_8_TUBERACK_20000UL_TEST : LabwareDef :=
  { displayName := "CALAB 8 Tube Rack with Generic 20 mL"
    displayCategory := "tubeRack"
    wells :=
      [("A1", ⟨55.55, 20000, "circular", 27.15, 16.5, 68.97, 5.2⟩),
       ("B1", ⟨55.55, 20000, "circular", 27.15, 16.5, 37.97, 5.2⟩),
       ("A2", ⟨55.55, 20000, "circular", 27.15, 47.5, 68.97, 5.2⟩),
       ("B2", ⟨55.55, 20000, "circular", 27.15, 47.5, 37.97, 5.2⟩),
       ("A3", ⟨55.55, 20000, "circular", 27.15, 78.5, 68.97, 5.2⟩),
       ("B3", ⟨55.55, 20000, "circular", 27.15, 78.5, 37.97, 5.2⟩),
       ("A4", ⟨55.55, 20000, "circular", 27.15, 109.5, 68.97, 5.2⟩),
       ("B4", ⟨55.55, 20000, "circular", 27.15, 109.5, 37.97, 5.2⟩)] }

/-- A concrete well state with one tracked constituent `"a"` (stock volume
10, stock concentration 2, both uncertainties 0), a linear
volume/headroom conversion pair, current volume 10 and headroom 40, used
to instantiate theorems at concrete inputs. -/
def wellA : CInfo :=
  { constituents_number := 1
    volume := 10
    headroom := 40
    v_given_h := fun h => 50 - h
    h_given_v := fun v => 50 - v
    vu_random := 0
    vu_systematic := 0
    constituents := ["a"]
    concentrations_stock := fun n => if n = "a" then some 2 else none
    concentration_uncertainty_stock := fun n => if n = "a" then some 0 else none
    volume_stock := fun n => if n = "a" then some 10 else none
    volume_uncertainty_stock := fun n => if n = "a" then some 0 else none }

/-- A concrete well state whose tracked constituent `"a"` has stock
concentration 0, so the uncertainty formulas divide by zero. -/
def wellZ : CInfo :=
  { wellA with
    concentrations_stock := fun n => if n = "a" then some 0 else none }

/-- A freshly initiated well (volume 0) with a linear conversion pair,
used to exhibit that a single `set_headroom` call updates the volume. -/
def wellInit : CInfo := initiate_well 100 (fun h => 100 - h) (fun v => 100 - v)

/-- A concrete well state whose `h_given_v` conversion is the constant 10,
so that with `safety_height = 20` the well-bottom bound
`h_given_v 0 - safety_height` is negative. -/
def wellShallow : CInfo :=
  { constituents_number := 0
    volume := 50
    headroom := 10
    v_given_h := fun _ => 0
    h_given_v := fun _ => 10
    vu_random := 0
    vu_systematic := 0
    constituents := []
    concentrations_stock := fun _ => none
    concentration_uncertainty_stock := fun _ => none
    volume_stock := fun _ => none
    volume_uncertainty_stock := fun _ => none }

/-- A division with a zero divisor raises `ZeroDivisionError`. -/
theorem pyDiv_zero_divisor (a : ℝ) : pyDiv a 0 = .error .zeroDivisionError := by
  simp [pyDiv]

/-- A division with a nonzero divisor returns the quotient. -/
theorem pyDiv_ok (a b : ℝ) (h : b ≠ 0) : pyDiv a b = .ok (a / b) := by
  simp [pyDiv, h]

/-- Claim C2: for a constituent never recorded in the well's stock maps,
`get_concentration` prints the warning and returns the triple `(0, 0, 0)`,
leaving the well state unchanged; determinism is immediate since the
embedding is a pure function of the well state and the constituent. -/
theorem get_concentration_untracked (c : CInfo) (constituent : String)
    (h1 : c.volume_stock constituent = none)
    (h2 : c.concentrations_stock constituent = none)
    (h3 : c.concentration_uncertainty_stock constituent = none)
    (h4 : c.volume_uncertainty_stock constituent = none) :
    get_concentration c constituent = (c, .ok ⟨0, 0, 0, true⟩) := by
  unfold get_concentration
  rw [h1, h2, h3, h4]

/-- Claim C2 witness: querying the untracked constituent `"b"` of `wellA`
warns and returns `(0, 0, 0)`. -/
theorem get_concentration_untracked_witness :
    get_concentration wellA "b" = (wellA, .ok ⟨0, 0, 0, true⟩) :=
  get_concentration_untracked wellA "b" rfl rfl rfl rfl

/-- Claim C3 counterexample: a single call to `set_headroom` does by
itself update the volume field (here from `0` to `70`), contrary to the
claim that one setter call leaves the other field untouched. -/
theorem set_headroom_updates_volume_cex :
    (set_headroom wellInit 30).volume ≠ wellInit.volume := by
  norm_num [set_headroom, wellInit, initiate_well]

/-- Claim C3 amended: consistency of headroom and volume is enforced by
each setter itself, not left to a calling convention: `set_headroom` also
writes the volume through `v_given_h`, and `set_volume` also writes the
headroom through `h_given_v`. -/
theorem setters_update_both_fields (c : CInfo) (h v : ℝ) :
    (set_headroom c h).headroom = h ∧ (set_headroom c h).volume = c.v_given_h h ∧
    (set_volume c v).volume = v ∧ (set_volume c v).headroom = c.h_given_v v :=
  ⟨rfl, rfl, rfl, rfl⟩

/-- Claim C9: the read operations `get_concentration`, `get_headroom`,
`get_volume` and `get_constituents` return the well state unchanged, the
missing-key path of `get_concentration` included. -/
theorem read_ops_preserve_state (c : CInfo) (constituent : String) :
    (get_concentration c constituent).1 = c ∧ (get_headroom c).1 = c ∧
    (get_volume c).1 = c ∧ (get_constituents c).1 = c := by
  refine ⟨?_, rfl, rfl, rfl⟩
  unfold get_concentration
  split <;> rfl

/-- Claim C10: the embedded labware JSON of both run scripts describes a
tube rack with exactly the 8 wells `A1 B1 A2 B2 A3 B3 A4 B4`, each
circular with depth 55.55, diameter 27.15 and total liquid volume
20000. -/
theorem calab_labware_wells_spec :
    (CALAB_8_TUBERACK_20000UL_AC.displayCategory = "tubeRack" ∧
     CALAB_8_TUBERACK_20000UL_AC.wells.map Prod.fst =
       ["A1", "B1", "A2", "B2", "A3", "B3", "A4", "B4"] ∧
     CALAB_8_TUBERACK_20000UL_AC.wells.length = 8 ∧
     ∀ p ∈ CALAB_8_TUBERACK_20000UL_AC.wells,
       p.2.shape = "circular" ∧ p.2.depth = 55.55 ∧ p.2.diameter = 27.15 ∧
         p.2.totalLiquidVolume = 20000) ∧
    CALAB_8_TUBERACK_20000UL_TEST = CALAB_8_TUBERACK_20000UL_AC := by
  refine ⟨⟨rfl, rfl, rfl, ?_⟩, rfl⟩
  simp [CALAB_8_TUBERACK_20000UL_AC, List.forall_mem_cons]

/-- Claim C6: when the constituent is tracked, `get_concentration` only
catches `KeyError`; a zero corrected well volume, zero stock
concentration or zero stock volume makes one of the divisions raise
`ZeroDivisionError`, which propagates to the caller instead of yielding
`(0, 0, 0)`. -/
theorem get_concentration_zero_div_propagates (c : CInfo) (constituent : String)
    (sv sc scu svu : ℝ)
    (hv : c.volume_stock constituent = some sv)
    (hc : c.concentrations_stock constituent = some sc)
    (hcu : c.concentration_uncertainty_stock constituent = some scu)
    (hvu : c.volume_uncertainty_stock constituent = some svu)
    (hzero : c.volume + c.vu_systematic = 0 ∨ sc = 0 ∨ sv = 0) :
    get_concentration c constituent = (c, .error .zeroDivisionError) := by
  unfold get_concentration
  rw [hv, hc, hcu, hvu]
  simp only [get_volume]
  by_cases hw : c.volume + c.vu_systematic = 0
  · simp only [hw, pyDiv_zero_divisor]
  · by_cases hsc : sc = 0
    · simp only [pyDiv_ok _ _ hw, hsc, pyDiv_zero_divisor]
    · have hsv : sv = 0 := by
        rcases hzero with h | h | h
        exacts [absurd h hw, absurd h hsc, h]
      simp only [pyDiv_ok _ _ hw, pyDiv_ok _ _ hsc, hsv, pyDiv_zero_divisor]

/-- Claim C6 witness: in `wellZ` the tracked constituent `"a"` has stock
concentration `0`, so `get_concentration` raises `ZeroDivisionError`. -/
theorem get_concentration_zero_div_propagates_witness :
    get_concentration wellZ "a" = (wellZ, .error .zeroDivisionError) :=
  get_concentration_zero_div_propagates wellZ "a" 10 0 0 0 rfl rfl rfl rfl
    (Or.inr (Or.inl rfl))

/-- Claim C8: `custom_aspirate` raises `AssertionError` exactly when
`transfer_volume` is not strictly positive or `safety_height` is
negative, and on that path the well state is returned unchanged. -/
theorem custom_aspirate_assertion_iff (tip_length default_aspirate : ℝ) (c : CInfo)
    (transfer_volume immersion_depth safety_height rate : ℝ) :
    ((custom_aspirate tip_length default_aspirate c transfer_volume immersion_depth
        safety_height rate).2 = .error .assertionError ↔
      transfer_volume ≤ 0 ∨ safety_height < 0) ∧
    (transfer_volume ≤ 0 ∨ safety_height < 0 →
      (custom_aspirate tip_length default_aspirate c transfer_volume immersion_depth
        safety_height rate).1 = c) := by
  unfold custom_aspirate
  by_cases h1 : transfer_volume > 0
  · by_cases h2 : safety_height ≥ 0
    · rw [if_neg (not_not_intro h1), if_neg (not_not_intro h2)]
      have hns : ¬ (transfer_volume ≤ 0 ∨ safety_height < 0) := by
        push_neg
        exact ⟨h1, h2⟩
      simp [hns]
    · rw [if_neg (not_not_intro h1), if_pos h2]
      simp
      exact Or.inr (not_le.mp h2)
  · rw [if_pos h1]
    simp
    exact Or.inl (not_lt.mp h1)

/-- Claim C8 witness: with `transfer_volume = -1` the call raises
`AssertionError` and leaves `wellA` unchanged. -/
theorem custom_aspirate_assertion_iff_witness :
    (custom_aspirate 50 1 wellA (-1) 2 (1/2) 75).2 = .error .assertionError ∧
    (custom_aspirate 50 1 wellA (-1) 2 (1/2) 75).1 = wellA :=
  ⟨(custom_aspirate_assertion_iff 50 1 wellA (-1) 2 (1/2) 75).1.mpr
      (Or.inl (by norm_num)),
   (custom_aspirate_assertion_iff 50 1 wellA (-1) 2 (1/2) 75).2
      (Or.inl (by norm_num))⟩

/-- Claim C4 counterexample: this call passes both argument assertions,
and the initially computed aspiration depth (12) exceeds the claimed
well-bottom bound `h_given_v 0 - safety_height = 10 - 20 = -10`, yet no
warning is printed and no clamped depth is ever passed to
`pipette.aspirate`: the call raises `NameError` at the undefined name
`bb` (line 246) first, so the clamping behaviour the claim describes
never occurs. -/
theorem custom_aspirate_bottom_bound_cex :
    custom_aspirate 50 1 wellShallow 5 2 20 75 = (wellShallow, .error .nameError) ∧
    depth_to_aspirate_initial wellShallow 5 2 > wellShallow.h_given_v 0 - 20 := by
  constructor
  · unfold custom_aspirate
    norm_num
  · norm_num [depth_to_aspirate_initial, wellShallow]

/-- Claim C4 amended: every call to `custom_aspirate` that passes its
argument assertions raises `NameError` at the undefined module name `bb`
(line 246) before the well is read or written, before any aspiration
depth is computed, clamped or passed to `pipette.aspirate`, and before
any warning is printed; the well state is returned unchanged. -/
theorem custom_aspirate_assertion_passing_raises (tip_length default_aspirate : ℝ)
    (c : CInfo) (transfer_volume immersion_depth safety_height rate : ℝ)
    (h1 : transfer_volume > 0) (h2 : safety_height ≥ 0) :
    custom_aspirate tip_length default_aspirate c transfer_volume immersion_depth
      safety_height rate = (c, .error .nameError) := by
  unfold custom_aspirate
  rw [if_neg (not_not_intro h1), if_neg (not_not_intro h2)]

/-- Claim C4 (amended) witness: a concrete assertion-passing call on a
freshly initiated well raises `NameError` with the state unchanged. -/
theorem custom_aspirate_assertion_passing_raises_witness :
    custom_aspirate 60 2 wellInit 1 2 0 30 = (wellInit, .error .nameError) :=
  custom_aspirate_assertion_passing_raises 60 2 wellInit 1 2 0 30 (by norm_num)
    (by norm_num)

/-- Claim C5 (code bug): the tip-submersion clamp documented by the
docstring and the comment at line 272 is unreachable.  This
assertion-passing call raises `NameError` at the undefined name `bb`
(line 246), so no depth is ever computed, clamped against
`0.8 * tip length + initial headroom` or passed to `pipette.aspirate`,
and no warning is printed. -/
theorem custom_aspirate_submersion_clamp_unreachable :
    custom_aspirate 50 1 wellA 5 2 (1/2) 75 = (wellA, .error .nameError) := by
  unfold custom_aspirate
  norm_num

/-- Claim C7 (code bug): the headroom update at line 258 is unreachable.
This assertion-passing call raises `NameError` at the undefined name
`bb` (line 246), so the well's stored headroom and volume are left
exactly as they were. -/
theorem custom_aspirate_update_unreachable :
    custom_aspirate 50 1 wellA 3 2 1 75 = (wellA, .error .nameError) ∧
    (custom_aspirate 50 1 wellA 3 2 1 75).1.headroom = wellA.headroom ∧
    (custom_aspirate 50 1 wellA 3 2 1 75).1.volume = wellA.volume := by
  have h : custom_aspirate 50 1 wellA 3 2 1 75 = (wellA, .error .nameError) := by
    unfold custom_aspirate
    norm_num
  exact ⟨h, by rw [h], by rw [h]⟩

/-- Claim C1: for a tracked constituent with positive stock
concentration, positive stock volume and positive systematic-corrected
well volume, the low uncertainty estimate returned by `get_concentration`
is at most the high one: the high estimate adds the non-negative variance
term `(stock_v_unc / stock_volume)^2` under the square root. -/
theorem get_concentration_low_le_high (c : CInfo) (constituent : String)
    (sv sc scu svu : ℝ) (out : ConcResult)
    (hv : c.volume_stock constituent = some sv)
    (hc : c.concentrations_stock constituent = some sc)
    (hcu : c.concentration_uncertainty_stock constituent = some scu)
    (hvu : c.volume_uncertainty_stock constituent = some svu)
    (hsc : 0 < sc) (hsv : 0 < sv)
    (hcw : 0 < c.volume + c.vu_systematic)
    (hout : (get_concentration c constituent).2 = .ok out) :
    out.low_c_unc ≤ out.high_c_unc := by
  unfold get_concentration at hout
  rw [hv, hc, hcu, hvu] at hout
  simp only [get_volume, pyDiv_ok _ _ hcw.ne', pyDiv_ok _ _ hsc.ne',
    pyDiv_ok _ _ hsv.ne'] at hout
  obtain rfl := (Except.ok.inj hout).symm
  have hconc : 0 < sv / (c.volume + c.vu_systematic) * sc :=
    mul_pos (div_pos hsv hcw) hsc
  have hsq : Real.sqrt ((scu / sc) ^ 2 +
        (c.vu_random / (c.volume + c.vu_systematic)) ^ 2) ≤
      Real.sqrt ((svu / sv) ^ 2 + (scu / sc) ^ 2 +
        (c.vu_random / (c.volume + c.vu_systematic)) ^ 2) :=
    Real.sqrt_le_sqrt (by nlinarith [sq_nonneg (svu / sv)])
  exact mul_le_mul_of_nonneg_right hsq hconc.le

/-- Claim C1 witness: for the tracked constituent `"a"` of `wellA` the
call returns concentration 2 with low and high uncertainties both 0, and
`low ≤ high`. -/
theorem get_concentration_low_le_high_witness :
    (get_concentration wellA "a").2 = .ok ⟨2, 0, 0, false⟩ ∧
    (ConcResult.mk 2 0 0 false).low_c_unc ≤ (ConcResult.mk 2 0 0 false).high_c_unc := by
  have hout : (get_concentration wellA "a").2 = .ok ⟨2, 0, 0, false⟩ := by
    unfold get_concentration
    norm_num [wellA, pyDiv, get_volume, Real.sqrt_zero]
  exact ⟨hout,
    get_concentration_low_le_high wellA "a" 10 2 0 0 ⟨2, 0, 0, false⟩ rfl rfl rfl rfl
      (by norm_num) (by norm_num) (by norm_num [wellA]) hout⟩
